import Mathlib

/-!
Shallow embedding of `src/contracts/FinancialRecommendationFHE.sol`.

Solidity `uint32`/`uint256` values are modelled as `Nat` with explicit
bounds checks where the source's checked arithmetic (Solidity 0.8) can
revert.  Opaque ciphertext handles (`euint32`) are modelled as the `Nat`
they carry: the contract never computes on them, it only stores them and
ships them to the external decryption oracle.  Each external (state
mutating) Solidity function becomes a Lean function
`... → ContractState → Except ContractError ContractState`; `Except.error`
models a revert, which in the EVM rolls the whole call back, so the
`step` function leaves the state unchanged on an error.
-/

namespace FinRec

/-- 2 ^ 32, the modulus of Solidity `uint32`. -/
def U32_MOD : Nat := 4294967296

/-- 2 ^ 256, the modulus of Solidity `uint256`. -/
def U256_MOD : Nat := Nat.pow 2 256

/-- Revert causes of the contract, by source location:
`invalidRequest` = `require(... != 0, "Invalid request")`,
`alreadyDecrypted` = `require(!... .isRevealed, "Already decrypted")`,
`invalidProof` = revert inside `FHE.checkSignatures`,
`arithOverflow` = Solidity 0.8 checked-arithmetic panic. -/
inductive ContractError where
  | invalidRequest
  | alreadyDecrypted
  | invalidProof
  | arithOverflow
deriving DecidableEq

/-- Struct `EncryptedProfile` (source lines 8-15); `euint32` handles as `Nat`. -/
structure EncryptedProfile where
  profileId : Nat
  encryptedIncome : Nat
  encryptedAssets : Nat
  encryptedRiskTolerance : Nat
  encryptedGoals : Nat
  timestamp : Nat
deriving DecidableEq

/-- Struct `EncryptedRecommendation` (source lines 17-23). -/
structure EncryptedRecommendation where
  recommendationId : Nat
  encryptedProductId : Nat
  encryptedMatchScore : Nat
  profileId : Nat
  generatedAt : Nat
deriving DecidableEq

/-- Struct `DecryptedResult` (source lines 25-29). -/
structure DecryptedResult where
  productId : Nat
  matchScore : Nat
  isRevealed : Bool
deriving DecidableEq

/-- The contract's storage (source lines 31-38).  Solidity mappings are
total functions returning the zero value for keys never written. -/
structure ContractState where
  profileCount : Nat
  recommendationCount : Nat
  encryptedProfiles : Nat → EncryptedProfile
  encryptedRecommendations : Nat → EncryptedRecommendation
  decryptedResults : Nat → DecryptedResult
  requestToProfileId : Nat → Nat
  recommendationRequestToId : Nat → Nat

/-- Freshly deployed contract: every storage slot is zero. -/
def initState : ContractState where
  profileCount := 0
  recommendationCount := 0
  encryptedProfiles := fun _ => ⟨0, 0, 0, 0, 0, 0⟩
  encryptedRecommendations := fun _ => ⟨0, 0, 0, 0, 0⟩
  decryptedResults := fun _ => ⟨0, 0, false⟩
  requestToProfileId := fun _ => 0
  recommendationRequestToId := fun _ => 0

/-- Checked `uint32` addition: Solidity 0.8 reverts when the sum leaves
the `uint32` range. -/
def checkedAdd32 (a b : Nat) : Option Nat :=
  if a + b < U32_MOD then some (a + b) else none

/-- Checked `uint32` multiplication. -/
def checkedMul32 (a b : Nat) : Option Nat :=
  if a * b < U32_MOD then some (a * b) else none

/-- `determineProductId` (source lines 189-198). -/
def determineProductId (income assets riskScore goals : Nat) : Nat :=
  if riskScore > 70 ∧ assets > 500000 then 3
  else if income > 100000 ∧ goals = 2 then 2
  else 1

/-- `calculateMatchScore` (source lines 200-204):
`uint32 score = (income / 10000) + (assets / 100000) + riskScore + (goals * 10)`
with every `uint32` operation checked, then clamped to 100.
`none` models the revert on checked-arithmetic overflow. -/
def calculateMatchScore (income assets riskScore goals : Nat) : Option Nat :=
  match checkedAdd32 (income / 10000) (assets / 100000) with
  | none => none
  | some s1 =>
    match checkedAdd32 s1 riskScore with
    | none => none
    | some s2 =>
      match checkedMul32 goals 10 with
      | none => none
      | some g10 =>
        match checkedAdd32 s2 g10 with
        | none => none
        | some score => some (if score > 100 then 100 else score)

/-- The spec's `compute`: the pair produced inside `generateRecommendation`
(source lines 104-105) from the two pure helpers.  `none` models a revert
of the enclosing call on checked-arithmetic overflow. -/
def compute (income assets riskScore goals : Nat) : Option (Nat × Nat) :=
  match calculateMatchScore income assets riskScore goals with
  | none => none
  | some ms => some (determineProductId income assets riskScore goals, ms)

/-- `submitEncryptedProfile` (source lines 50-69).  The assigned profile id
(`newProfileId`, exposed via the `ProfileSubmitted` event) is always
`s.profileCount + 1`, which is also the new `profileCount`.  The only
possible revert is the checked `uint256` increment. -/
def submitEncryptedProfile (encIncome encAssets encRisk encGoals ts : Nat)
    (s : ContractState) : Except ContractError ContractState :=
  if s.profileCount + 1 < U256_MOD then
    let newProfileId := s.profileCount + 1
    .ok { s with
      profileCount := newProfileId
      encryptedProfiles := fun id =>
        if id = newProfileId then
          ⟨newProfileId, encIncome, encAssets, encRisk, encGoals, ts⟩
        else s.encryptedProfiles id }
  else .error .arithOverflow

/-- `requestFinancialRecommendation` (source lines 71-84).  `reqId` is the
oracle-assigned request id returned by `FHE.requestDecryption` (guaranteed
globally unique by the oracle).  The source performs no existence check on
`profileId` (the `onlyClient` modifier is a no-op): it reads the (possibly
all-zero) profile, issues the oracle request and records the mapping. -/
def requestFinancialRecommendation (profileId reqId : Nat) (s : ContractState) :
    Except ContractError ContractState :=
  .ok { s with
    requestToProfileId := fun r =>
      if r = reqId then profileId else s.requestToProfileId r }

/-- `generateRecommendation` (source lines 86-122), the `ProfileDecrypt`
callback.  `income assets riskScore goals` are the four `uint32`s decoded
from `cleartexts`; `proofValid` models whether `FHE.checkSignatures`
succeeds.  Note the source never deletes `requestToProfileId[requestId]`. -/
def generateRecommendation (requestId income assets riskScore goals : Nat)
    (proofValid : Bool) (ts : Nat) (s : ContractState) :
    Except ContractError ContractState :=
  let profileId := s.requestToProfileId requestId
  if profileId = 0 then .error .invalidRequest
  else if proofValid = false then .error .invalidProof
  else if s.recommendationCount + 1 < U256_MOD then
    match calculateMatchScore income assets riskScore goals with
    | none => .error .arithOverflow
    | some matchScore =>
      let newRecommendationId := s.recommendationCount + 1
      let productId := determineProductId income assets riskScore goals
      .ok { s with
        recommendationCount := newRecommendationId
        encryptedRecommendations := fun i =>
          if i = newRecommendationId then
            ⟨newRecommendationId, productId, matchScore, profileId, ts⟩
          else s.encryptedRecommendations i
        decryptedResults := fun i =>
          if i = newRecommendationId then ⟨productId, matchScore, false⟩
          else s.decryptedResults i }
  else .error .arithOverflow

/-- `requestRecommendationDecryption` (source lines 124-134).  Checks only
that the target's `DecryptedResult.isRevealed` is false (true for any id
never written, including nonexistent recommendations); no existence
check.  `reqId` is the oracle-assigned request id. -/
def requestRecommendationDecryption (recommendationId reqId : Nat)
    (s : ContractState) : Except ContractError ContractState :=
  if (s.decryptedResults recommendationId).isRevealed then
    .error .alreadyDecrypted
  else
    .ok { s with
      recommendationRequestToId := fun r =>
        if r = reqId then recommendationId else s.recommendationRequestToId r }

/-- `decryptRecommendation` (source lines 136-156), the
`RecommendationDecrypt` callback.  `productId matchScore` are the two
`uint32`s decoded from `cleartexts`.  The source never deletes
`recommendationRequestToId[requestId]`. -/
def decryptRecommendation (requestId productId matchScore : Nat)
    (proofValid : Bool) (s : ContractState) :
    Except ContractError ContractState :=
  let recommendationId := s.recommendationRequestToId requestId
  if recommendationId = 0 then .error .invalidRequest
  else if (s.decryptedResults recommendationId).isRevealed then
    .error .alreadyDecrypted
  else if proofValid = false then .error .invalidProof
  else
    .ok { s with
      decryptedResults := fun i =>
        if i = recommendationId then ⟨productId, matchScore, true⟩
        else s.decryptedResults i }

/-- `getDecryptedResult` (source lines 158-165): public view, total. -/
def getDecryptedResult (recommendationId : Nat) (s : ContractState) :
    Nat × Nat × Bool :=
  let r := s.decryptedResults recommendationId
  (r.productId, r.matchScore, r.isRevealed)

/-- `getEncryptedProfile` (source lines 167-176): public view, total. -/
def getEncryptedProfile (profileId : Nat) (s : ContractState) :
    Nat × Nat × Nat × Nat × Nat :=
  let p := s.encryptedProfiles profileId
  (p.encryptedIncome, p.encryptedAssets, p.encryptedRiskTolerance,
   p.encryptedGoals, p.timestamp)

/-- One external call into the contract, with all oracle-controlled data
(request ids, decoded cleartexts, proof validity) as parameters. -/
inductive Op where
  | submitProfile (encIncome encAssets encRisk encGoals ts : Nat)
  | requestRecommendation (profileId reqId : Nat)
  | genRecommendation (requestId income assets riskScore goals : Nat)
      (proofValid : Bool) (ts : Nat)
  | requestRecDecryption (recommendationId reqId : Nat)
  | decryptRec (requestId productId matchScore : Nat) (proofValid : Bool)

/-- Outcome of one external call. -/
def Op.run (op : Op) (s : ContractState) : Except ContractError ContractState :=
  match op with
  | .submitProfile a b c d ts => submitEncryptedProfile a b c d ts s
  | .requestRecommendation p r => requestFinancialRecommendation p r s
  | .genRecommendation rq i a r g pv ts => generateRecommendation rq i a r g pv ts s
  | .requestRecDecryption rec rq => requestRecommendationDecryption rec rq s
  | .decryptRec rq p m pv => decryptRecommendation rq p m pv s

/-- EVM semantics of a revert: an errored call leaves storage unchanged. -/
def step (s : ContractState) (op : Op) : ContractState :=
  match op.run s with
  | .ok s2 => s2
  | .error _ => s

/-- Run a sequence of external calls. -/
def execTrace (s : ContractState) (ops : List Op) : ContractState :=
  ops.foldl step s

/-- `true` iff the call did not revert. -/
def isOkB {ε α : Type} : Except ε α → Bool
  | .ok _ => true
  | .error _ => false

/-- All profile slots above `profileCount` (and slot 0) still hold the
zero struct: no `Profile` was ever stored under such an id. -/
def ProfilesPristine (s : ContractState) : Prop :=
  ∀ id, id = 0 ∨ s.profileCount < id → s.encryptedProfiles id = ⟨0, 0, 0, 0, 0, 0⟩

/-! ## General lemmas about single calls and traces -/

theorem step_of_ok {s s2 : ContractState} {op : Op} (h : op.run s = .ok s2) :
    step s op = s2 := by
  simp [step, h]

theorem step_of_error {s : ContractState} {op : Op} {e : ContractError}
    (h : op.run s = .error e) : step s op = s := by
  simp [step, h]

theorem submit_ok_shape {a b c d ts : Nat} {s s2 : ContractState}
    (h : submitEncryptedProfile a b c d ts s = .ok s2) :
    s2.profileCount = s.profileCount + 1 ∧
    s2.recommendationCount = s.recommendationCount ∧
    (s2.encryptedProfiles (s.profileCount + 1)).profileId = s.profileCount + 1 ∧
    (∀ id, id ≠ s.profileCount + 1 → s2.encryptedProfiles id = s.encryptedProfiles id) ∧
    s2.encryptedRecommendations = s.encryptedRecommendations ∧
    s2.decryptedResults = s.decryptedResults ∧
    s2.requestToProfileId = s.requestToProfileId ∧
    s2.recommendationRequestToId = s.recommendationRequestToId := by
  simp only [submitEncryptedProfile] at h
  by_cases hc : s.profileCount + 1 < U256_MOD
  · rw [if_pos hc] at h
    injection h with h
    subst h
    refine ⟨rfl, rfl, by simp, fun id hid => by simp [hid], rfl, rfl, rfl, rfl⟩
  · rw [if_neg hc] at h
    exact Except.noConfusion h

theorem requestRec_run (p r : Nat) (s : ContractState) :
    requestFinancialRecommendation p r s =
      .ok { s with requestToProfileId := fun q =>
              if q = r then p else s.requestToProfileId q } := rfl

theorem genRec_ok_shape {rq i a r g : Nat} {pv : Bool} {ts : Nat} {s s2 : ContractState}
    (h : generateRecommendation rq i a r g pv ts s = .ok s2) :
    s.requestToProfileId rq ≠ 0 ∧ pv = true ∧
    s.recommendationCount + 1 < U256_MOD ∧
    ∃ ms, calculateMatchScore i a r g = some ms ∧
      s2.profileCount = s.profileCount ∧
      s2.recommendationCount = s.recommendationCount + 1 ∧
      s2.encryptedProfiles = s.encryptedProfiles ∧
      s2.requestToProfileId = s.requestToProfileId ∧
      s2.recommendationRequestToId = s.recommendationRequestToId ∧
      s2.decryptedResults (s.recommendationCount + 1) =
        ⟨determineProductId i a r g, ms, false⟩ ∧
      s2.encryptedRecommendations (s.recommendationCount + 1) =
        ⟨s.recommendationCount + 1, determineProductId i a r g, ms,
          s.requestToProfileId rq, ts⟩ ∧
      (∀ id, id ≠ s.recommendationCount + 1 →
        s2.decryptedResults id = s.decryptedResults id ∧
        s2.encryptedRecommendations id = s.encryptedRecommendations id) := by
  simp only [generateRecommendation] at h
  by_cases h0 : s.requestToProfileId rq = 0
  · rw [if_pos h0] at h; exact Except.noConfusion h
  · rw [if_neg h0] at h
    by_cases hpv : pv = false
    · rw [if_pos hpv] at h; exact Except.noConfusion h
    · rw [if_neg hpv] at h
      by_cases hc : s.recommendationCount + 1 < U256_MOD
      · rw [if_pos hc] at h
        rcases hms : calculateMatchScore i a r g with _ | ms
        · rw [hms] at h; exact Except.noConfusion h
        · rw [hms] at h
          injection h with h
          subst h
          refine ⟨h0, by simpa using hpv, hc, ms, rfl, rfl, rfl, rfl, rfl, rfl,
            by simp, by simp, fun id hid => ⟨by simp [hid], by simp [hid]⟩⟩
      · rw [if_neg hc] at h; exact Except.noConfusion h

theorem requestRecDec_ok_shape {rec rq : Nat} {s s2 : ContractState}
    (h : requestRecommendationDecryption rec rq s = .ok s2) :
    (s.decryptedResults rec).isRevealed = false ∧
    s2 = { s with recommendationRequestToId := fun r =>
            if r = rq then rec else s.recommendationRequestToId r } := by
  simp only [requestRecommendationDecryption] at h
  by_cases hr : (s.decryptedResults rec).isRevealed
  · rw [if_pos hr] at h; exact Except.noConfusion h
  · rw [if_neg hr] at h
    injection h with h
    exact ⟨by simpa using hr, h.symm⟩

theorem decryptRec_ok_shape {rq p m : Nat} {pv : Bool} {s s2 : ContractState}
    (h : decryptRecommendation rq p m pv s = .ok s2) :
    s.recommendationRequestToId rq ≠ 0 ∧
    (s.decryptedResults (s.recommendationRequestToId rq)).isRevealed = false ∧
    pv = true ∧
    s2.profileCount = s.profileCount ∧
    s2.recommendationCount = s.recommendationCount ∧
    s2.encryptedProfiles = s.encryptedProfiles ∧
    s2.encryptedRecommendations = s.encryptedRecommendations ∧
    s2.requestToProfileId = s.requestToProfileId ∧
    s2.recommendationRequestToId = s.recommendationRequestToId ∧
    s2.decryptedResults (s.recommendationRequestToId rq) = ⟨p, m, true⟩ ∧
    (∀ id, id ≠ s.recommendationRequestToId rq →
      s2.decryptedResults id = s.decryptedResults id) := by
  simp only [decryptRecommendation] at h
  by_cases h0 : s.recommendationRequestToId rq = 0
  · rw [if_pos h0] at h; exact Except.noConfusion h
  · rw [if_neg h0] at h
    by_cases hr : (s.decryptedResults (s.recommendationRequestToId rq)).isRevealed
    · rw [if_pos hr] at h; exact Except.noConfusion h
    · rw [if_neg hr] at h
      by_cases hpv : pv = false
      · rw [if_pos hpv] at h; exact Except.noConfusion h
      · rw [if_neg hpv] at h
        injection h with h
        subst h
        refine ⟨h0, by simpa using hr, by simpa using hpv, rfl, rfl, rfl, rfl, rfl, rfl,
          by simp, fun id hid => by simp [hid]⟩

theorem genRec_err_unknown {rq : Nat} (i a r g : Nat) (pv : Bool) (ts : Nat)
    {s : ContractState} (h0 : s.requestToProfileId rq = 0) :
    generateRecommendation rq i a r g pv ts s = .error .invalidRequest := by
  simp [generateRecommendation, h0]

theorem genRec_err_proof {rq : Nat} (i a r g ts : Nat) {s : ContractState}
    (h0 : s.requestToProfileId rq ≠ 0) :
    generateRecommendation rq i a r g false ts s = .error .invalidProof := by
  simp [generateRecommendation, h0]

theorem decryptRec_err_unknown {rq : Nat} (p m : Nat) (pv : Bool)
    {s : ContractState} (h0 : s.recommendationRequestToId rq = 0) :
    decryptRecommendation rq p m pv s = .error .invalidRequest := by
  simp [decryptRecommendation, h0]

theorem decryptRec_err_already {rq : Nat} (p m : Nat) (pv : Bool) {s : ContractState}
    (h0 : s.recommendationRequestToId rq ≠ 0)
    (hr : (s.decryptedResults (s.recommendationRequestToId rq)).isRevealed = true) :
    decryptRecommendation rq p m pv s = .error .alreadyDecrypted := by
  simp [decryptRecommendation, h0, hr]

theorem decryptRec_err_proof {rq : Nat} (p m : Nat) {s : ContractState}
    (h0 : s.recommendationRequestToId rq ≠ 0)
    (hr : (s.decryptedResults (s.recommendationRequestToId rq)).isRevealed = false) :
    decryptRecommendation rq p m false s = .error .invalidProof := by
  simp [decryptRecommendation, h0, hr]

theorem requestRecDec_err_already {rec : Nat} (rq : Nat) {s : ContractState}
    (hr : (s.decryptedResults rec).isRevealed = true) :
    requestRecommendationDecryption rec rq s = .error .alreadyDecrypted := by
  simp [requestRecommendationDecryption, hr]

theorem requestRecDec_ok {rec : Nat} (rq : Nat) {s : ContractState}
    (hr : (s.decryptedResults rec).isRevealed = false) :
    requestRecommendationDecryption rec rq s =
      .ok { s with recommendationRequestToId := fun r =>
              if r = rq then rec else s.recommendationRequestToId r } := by
  simp [requestRecommendationDecryption, hr]

theorem genRec_ok_of (rq i a r g ts : Nat) {s : ContractState}
    (h0 : s.requestToProfileId rq ≠ 0) (hc : s.recommendationCount + 1 < U256_MOD)
    {ms : Nat} (hms : calculateMatchScore i a r g = some ms) :
    isOkB (generateRecommendation rq i a r g true ts s) = true := by
  simp [generateRecommendation, h0, hc, hms, isOkB]

theorem counts_le_step (s : ContractState) (op : Op) :
    s.profileCount ≤ (step s op).profileCount ∧
    s.recommendationCount ≤ (step s op).recommendationCount := by
  cases hrun : op.run s with
  | error e => rw [step_of_error hrun]; exact ⟨le_refl _, le_refl _⟩
  | ok s2 =>
    rw [step_of_ok hrun]
    cases op with
    | submitProfile a b c d ts =>
        obtain ⟨h1, h2, _⟩ := submit_ok_shape hrun
        omega
    | requestRecommendation p r =>
        simp only [Op.run, requestRec_run] at hrun
        injection hrun with hrun
        subst hrun
        exact ⟨le_refl _, le_refl _⟩
    | genRecommendation rq i a r g pv ts =>
        obtain ⟨_, _, _, ms, _, h1, h2, _⟩ := genRec_ok_shape hrun
        omega
    | requestRecDecryption rec rq =>
        obtain ⟨_, h2⟩ := requestRecDec_ok_shape hrun
        subst h2
        exact ⟨le_refl _, le_refl _⟩
    | decryptRec rq p m pv =>
        obtain ⟨_, _, _, h1, h2, _⟩ := decryptRec_ok_shape hrun
        omega

theorem counts_le_execTrace (ops : List Op) : ∀ s : ContractState,
    s.profileCount ≤ (execTrace s ops).profileCount ∧
    s.recommendationCount ≤ (execTrace s ops).recommendationCount := by
  induction ops with
  | nil => intro s; exact ⟨le_refl _, le_refl _⟩
  | cons op rest ih =>
      intro s
      have h1 := counts_le_step s op
      have h2 := ih (step s op)
      simp only [execTrace, List.foldl] at h2 ⊢
      exact ⟨le_trans h1.1 h2.1, le_trans h1.2 h2.2⟩

theorem revealed_preserved_step {s : ContractState} {op : Op} {id : Nat}
    (hle : id ≤ s.recommendationCount)
    (hrev : (s.decryptedResults id).isRevealed = true) :
    ((step s op).decryptedResults id).isRevealed = true := by
  cases hrun : op.run s with
  | error e => rw [step_of_error hrun]; exact hrev
  | ok s2 =>
    rw [step_of_ok hrun]
    cases op with
    | submitProfile a b c d ts =>
        obtain ⟨_, _, _, _, _, hd, _⟩ := submit_ok_shape hrun
        rw [hd]; exact hrev
    | requestRecommendation p r =>
        simp only [Op.run, requestRec_run] at hrun
        injection hrun with hrun
        subst hrun
        exact hrev
    | genRecommendation rq i a r g pv ts =>
        obtain ⟨_, _, _, ms, _, _, _, _, _, _, _, _, hrest⟩ := genRec_ok_shape hrun
        have hid : id ≠ s.recommendationCount + 1 := by omega
        rw [(hrest id hid).1]; exact hrev
    | requestRecDecryption rec rq =>
        obtain ⟨_, h2⟩ := requestRecDec_ok_shape hrun
        subst h2
        exact hrev
    | decryptRec rq p m pv =>
        obtain ⟨_, _, _, _, _, _, _, _, _, hset, hrest⟩ := decryptRec_ok_shape hrun
        by_cases hid : id = s.recommendationRequestToId rq
        · subst hid; rw [hset]
        · rw [hrest id hid]; exact hrev

theorem pristine_step {s : ContractState} (op : Op) (hp : ProfilesPristine s) :
    ProfilesPristine (step s op) := by
  cases hrun : op.run s with
  | error e => rw [step_of_error hrun]; exact hp
  | ok s2 =>
    rw [step_of_ok hrun]
    cases op with
    | submitProfile a b c d ts =>
        obtain ⟨h1, _, _, h4, _⟩ := submit_ok_shape hrun
        intro id hid
        rw [h1] at hid
        have hne : id ≠ s.profileCount + 1 := by omega
        rw [h4 id hne]
        exact hp id (by omega)
    | requestRecommendation p r =>
        simp only [Op.run, requestRec_run] at hrun
        injection hrun with hrun
        subst hrun
        exact hp
    | genRecommendation rq i a r g pv ts =>
        obtain ⟨_, _, _, ms, _, h1, _, h3, _⟩ := genRec_ok_shape hrun
        intro id hid
        rw [h1] at hid
        rw [h3]
        exact hp id hid
    | requestRecDecryption rec rq =>
        obtain ⟨_, h2⟩ := requestRecDec_ok_shape hrun
        subst h2
        exact hp
    | decryptRec rq p m pv =>
        obtain ⟨_, _, _, h4, _, h6, _⟩ := decryptRec_ok_shape hrun
        intro id hid
        rw [h4] at hid
        rw [h6]
        exact hp id hid

theorem pristine_execTrace (ops : List Op) :
    ∀ s : ContractState, ProfilesPristine s → ProfilesPristine (execTrace s ops) := by
  induction ops with
  | nil => intro s hp; exact hp
  | cons op rest ih =>
      intro s hp
      simp only [execTrace, List.foldl]
      exact ih (step s op) (pristine_step op hp)

theorem pristine_init : ProfilesPristine initState := by
  intro id _; rfl

/-! ## Claim theorems -/

/-- C3 (amended): for every quadruple of u32 inputs on which the checked
u32 arithmetic of the score does not overflow, `compute` returns
productId = 3 if riskScore > 70 and assets > 500000, else 2 if
income > 100000 and goals = 2, else 1, and
matchScore = min(income/10000 + assets/100000 + riskScore + goals*10, 100)
with integer floor division; in particular
compute(50000, 600000, 80, 1) = (3, 100),
compute(150000, 10000, 10, 2) = (2, 45) and
compute(10000, 1000, 5, 0) = (1, 6).  (The unrestricted claim fails:
on inputs whose intermediate sums or `goals * 10` leave the u32 range the
source's checked arithmetic reverts instead of returning the clamp.) -/
theorem compute_formula (income assets riskScore goals : Nat)
    (h1 : income / 10000 + assets / 100000 < U32_MOD)
    (h2 : income / 10000 + assets / 100000 + riskScore < U32_MOD)
    (h3 : goals * 10 < U32_MOD)
    (h4 : income / 10000 + assets / 100000 + riskScore + goals * 10 < U32_MOD) :
    compute income assets riskScore goals =
      some ((if riskScore > 70 ∧ assets > 500000 then 3
             else if income > 100000 ∧ goals = 2 then 2 else 1),
            min (income / 10000 + assets / 100000 + riskScore + goals * 10) 100) ∧
    compute 50000 600000 80 1 = some (3, 100) ∧
    compute 150000 10000 10 2 = some (2, 45) ∧
    compute 10000 1000 5 0 = some (1, 6) := by
  refine ⟨?_, by decide, by decide, by decide⟩
  simp only [compute, calculateMatchScore, checkedAdd32, checkedMul32, determineProductId,
    if_pos h1, if_pos h2, if_pos h3, if_pos h4]
  congr 1
  congr 1
  split <;> omega

/-- Witness for C3 at the first spec scenario. -/
theorem compute_formula_witness :
    compute 50000 600000 80 1 =
      some ((if 80 > 70 ∧ 600000 > 500000 then 3
             else if 50000 > 100000 ∧ 1 = 2 then 2 else 1),
            min (50000 / 10000 + 600000 / 100000 + 80 + 1 * 10) 100) :=
  (compute_formula 50000 600000 80 1 (by decide) (by decide) (by decide) (by decide)).1

/-- C3 counterexample: at goals = 429496730 (a u32), `goals * 10`
overflows u32, so the call reverts (`none`) although the claimed formula
demands matchScore = 100. -/
theorem compute_formula_cex :
    compute 0 0 0 429496730 = none ∧
    min (0 / 10000 + 0 / 100000 + 0 + 429496730 * 10) 100 = 100 := by
  exact ⟨by decide, by decide⟩

/-- C4 (amended): `compute` is deterministic and pure, but not total: it
succeeds exactly when the checked u32 arithmetic of the match score does
not overflow, i.e. when `goals * 10` and each left-to-right partial sum of
income/10000 + assets/100000 + riskScore + goals*10 stays below 2^32;
otherwise the call aborts with a checked-arithmetic revert. -/
theorem compute_totality_iff (income assets riskScore goals : Nat) :
    (compute income assets riskScore goals).isSome = true ↔
      (income / 10000 + assets / 100000 < U32_MOD ∧
       income / 10000 + assets / 100000 + riskScore < U32_MOD ∧
       goals * 10 < U32_MOD ∧
       income / 10000 + assets / 100000 + riskScore + goals * 10 < U32_MOD) := by
  by_cases h1 : income / 10000 + assets / 100000 < U32_MOD
  · by_cases h2 : income / 10000 + assets / 100000 + riskScore < U32_MOD
    · by_cases h3 : goals * 10 < U32_MOD
      · by_cases h4 : income / 10000 + assets / 100000 + riskScore + goals * 10 < U32_MOD
        · simp [compute, calculateMatchScore, checkedAdd32, checkedMul32, h1, h2, h3, h4]
        · simp [compute, calculateMatchScore, checkedAdd32, checkedMul32, h1, h2, h3, h4]
      · simp [compute, calculateMatchScore, checkedAdd32, checkedMul32, h1, h2, h3]
    · simp [compute, calculateMatchScore, checkedAdd32, checkedMul32, h1, h2]
  · simp [compute, calculateMatchScore, checkedAdd32, checkedMul32, h1]

/-- C4 counterexample: u32 inputs on which `compute` aborts (the second
checked addition of the score overflows u32), refuting totality. -/
theorem compute_totality_cex :
    compute 0 4294967295 4294967295 0 = none := by
  decide

/-- C1 (amended): a callback whose requestId has no pending entry (the
mapping holds 0) fails with the unknown-request revert and, by revert
semantics, leaves all state unchanged — but an accepted
`generateRecommendation` callback does NOT consume its pending entry:
`requestToProfileId` is unchanged, so a replayed second delivery with the
same requestId succeeds again (given the id counter can still be bumped)
and creates a fresh Recommendation; the Recommendation and result created
by the first delivery (any id up to the prior `recommendationCount`) are
unaffected by the replay. -/
theorem profileDecrypt_replay_behavior :
    (∀ s rq i a r g pv ts, s.requestToProfileId rq = 0 →
        generateRecommendation rq i a r g pv ts s = .error .invalidRequest ∧
        step s (.genRecommendation rq i a r g pv ts) = s) ∧
    (∀ s rq p m pv, s.recommendationRequestToId rq = 0 →
        decryptRecommendation rq p m pv s = .error .invalidRequest ∧
        step s (.decryptRec rq p m pv) = s) ∧
    (∀ s rq i a r g pv ts s2, generateRecommendation rq i a r g pv ts s = .ok s2 →
        s2.requestToProfileId = s.requestToProfileId ∧
        (∀ id, id ≤ s.recommendationCount →
          s2.decryptedResults id = s.decryptedResults id ∧
          s2.encryptedRecommendations id = s.encryptedRecommendations id) ∧
        (s2.recommendationCount + 1 < U256_MOD →
          isOkB (generateRecommendation rq i a r g pv ts s2) = true)) := by
  refine ⟨?_, ?_, ?_⟩
  · intro s rq i a r g pv ts h0
    have he := genRec_err_unknown i a r g pv ts h0
    exact ⟨he, step_of_error he⟩
  · intro s rq p m pv h0
    have he := decryptRec_err_unknown p m pv h0
    exact ⟨he, step_of_error he⟩
  · intro s rq i a r g pv ts s2 h
    obtain ⟨h0, hpv, hc, ms, hms, hpc, hrc, hep, hreq, hrr, hdset, heset, hold⟩ :=
      genRec_ok_shape h
    subst hpv
    refine ⟨hreq, fun id hid => hold id (by omega), fun hc2 => ?_⟩
    exact genRec_ok_of rq i a r g ts (by rw [hreq]; exact h0) hc2 hms

/-- Witness for C1 at concrete states: an unsolicited callback on the
fresh contract fails, and after a successful first delivery the pending
entry is intact and the same callback still succeeds. -/
theorem profileDecrypt_replay_behavior_witness :
    (generateRecommendation 9 1 1 1 1 true 0 initState = .error .invalidRequest ∧
      step initState (.genRecommendation 9 1 1 1 1 true 0) = initState) ∧
    (decryptRecommendation 9 1 1 true initState = .error .invalidRequest ∧
      step initState (.decryptRec 9 1 1 true) = initState) ∧
    (step (execTrace initState [Op.submitProfile 1 2 3 4 0, Op.requestRecommendation 1 7])
        (Op.genRecommendation 7 50000 600000 80 1 true 0)).requestToProfileId =
      (execTrace initState
        [Op.submitProfile 1 2 3 4 0, Op.requestRecommendation 1 7]).requestToProfileId ∧
    isOkB (generateRecommendation 7 50000 600000 80 1 true 0
      (step (execTrace initState [Op.submitProfile 1 2 3 4 0, Op.requestRecommendation 1 7])
        (Op.genRecommendation 7 50000 600000 80 1 true 0))) = true := by
  have h := profileDecrypt_replay_behavior
  refine ⟨h.1 initState 9 1 1 1 1 true 0 (by decide),
          h.2.1 initState 9 1 1 true (by decide), ?_, ?_⟩
  · exact (h.2.2 (execTrace initState [Op.submitProfile 1 2 3 4 0, Op.requestRecommendation 1 7])
      7 50000 600000 80 1 true 0
      (step (execTrace initState [Op.submitProfile 1 2 3 4 0, Op.requestRecommendation 1 7])
        (Op.genRecommendation 7 50000 600000 80 1 true 0)) rfl).1
  · exact (h.2.2 (execTrace initState [Op.submitProfile 1 2 3 4 0, Op.requestRecommendation 1 7])
      7 50000 600000 80 1 true 0
      (step (execTrace initState [Op.submitProfile 1 2 3 4 0, Op.requestRecommendation 1 7])
        (Op.genRecommendation 7 50000 600000 80 1 true 0)) rfl).2.2 (by decide)

/-- C1 counterexample: submit a profile, request its decryption
(requestId 7), deliver the callback once, then replay the identical
callback: the second delivery does not fail with the unknown-request
error — it is accepted and creates a second Recommendation
(`recommendationCount` becomes 2). -/
theorem profileDecrypt_replay_cex :
    isOkB ((Op.genRecommendation 7 50000 600000 80 1 true 0).run
      (execTrace initState
        [Op.submitProfile 1 2 3 4 0, Op.requestRecommendation 1 7,
         Op.genRecommendation 7 50000 600000 80 1 true 0])) = true ∧
    (execTrace initState
      [Op.submitProfile 1 2 3 4 0, Op.requestRecommendation 1 7,
       Op.genRecommendation 7 50000 600000 80 1 true 0,
       Op.genRecommendation 7 50000 600000 80 1 true 0]).recommendationCount = 2 := by
  exact ⟨by decide, by decide⟩

/-- C2 (amended): a Recommendation's paired result record is created with
isRevealed = false, but its productId/matchScore are stored in plaintext
at creation time: immediately after the accepted ProfileDecrypt callback
and before any reveal, the public read interface `getDecryptedResult`
already returns the computed plaintext pair (so the pre-reveal observable
values do depend on the decrypted profile values; the later reveal only
flips `isRevealed` and overwrites the pair with the oracle's values). -/
theorem result_plaintext_at_creation :
    ∀ s rq i a r g pv ts s2, generateRecommendation rq i a r g pv ts s = .ok s2 →
      ∃ ms, calculateMatchScore i a r g = some ms ∧
        getDecryptedResult s2.recommendationCount s2 =
          (determineProductId i a r g, ms, false) := by
  intro s rq i a r g pv ts s2 h
  obtain ⟨_, _, _, ms, hms, _, hrc, _, _, _, hdset, _⟩ := genRec_ok_shape h
  refine ⟨ms, hms, ?_⟩
  rw [hrc]
  simp [getDecryptedResult, hdset]

/-- Witness for C2: after one full submit/request/callback cycle, the
freshly created result is publicly readable in plaintext with
isRevealed = false. -/
theorem result_plaintext_at_creation_witness :
    getDecryptedResult
      (step (execTrace initState [Op.submitProfile 1 2 3 4 0, Op.requestRecommendation 1 7])
        (Op.genRecommendation 7 50000 600000 80 1 true 0)).recommendationCount
      (step (execTrace initState [Op.submitProfile 1 2 3 4 0, Op.requestRecommendation 1 7])
        (Op.genRecommendation 7 50000 600000 80 1 true 0)) = (3, 100, false) := by
  obtain ⟨ms, hms, heq⟩ :=
    result_plaintext_at_creation
      (execTrace initState [Op.submitProfile 1 2 3 4 0, Op.requestRecommendation 1 7])
      7 50000 600000 80 1 true 0
      (step (execTrace initState [Op.submitProfile 1 2 3 4 0, Op.requestRecommendation 1 7])
        (Op.genRecommendation 7 50000 600000 80 1 true 0)) rfl
  have h2 : calculateMatchScore 50000 600000 80 1 = some 100 := by decide
  rw [h2] at hms
  injection hms with hms
  subst hms
  have hd : determineProductId 50000 600000 80 1 = 3 := by decide
  rw [hd] at heq
  exact heq

/-- C2 counterexample: two runs identical except for the decrypted
profile values give different `getDecryptedResult` outputs while
isRevealed is still false — the pre-reveal observable plaintext depends
on the decrypted profile values, so the result is visible before the
reveal, not "exactly once at the reveal". -/
theorem result_confidentiality_cex :
    getDecryptedResult 1 (execTrace initState
      [Op.submitProfile 1 2 3 4 0, Op.requestRecommendation 1 7,
       Op.genRecommendation 7 50000 600000 80 1 true 0]) = (3, 100, false) ∧
    getDecryptedResult 1 (execTrace initState
      [Op.submitProfile 1 2 3 4 0, Op.requestRecommendation 1 7,
       Op.genRecommendation 7 10000 1000 5 0 true 0]) = (1, 6, false) := by
  exact ⟨by decide, by decide⟩

/-- C5 (amended): once a recommendation id has actually been created
(id ≤ recommendationCount), its `isRevealed` flag is monotone — no single
call resets it and the id stays created; `requestRecommendationDecryption`
on a revealed result fails with the already-decrypted revert, and a
`RecommendationDecrypt` callback whose live entry points to a revealed
result is rejected likewise.  (The unrestricted claim fails: a reveal can
be performed for a not-yet-created recommendation id, and the later
creation of that id overwrites the slot back to isRevealed = false.) -/
theorem isRevealed_monotone_after_creation :
    (∀ s op id, id ≤ s.recommendationCount →
        s.recommendationCount ≤ (step s op).recommendationCount ∧
        ((s.decryptedResults id).isRevealed = true →
          ((step s op).decryptedResults id).isRevealed = true)) ∧
    (∀ s rec rq, (s.decryptedResults rec).isRevealed = true →
        requestRecommendationDecryption rec rq s = .error .alreadyDecrypted) ∧
    (∀ s rq p m pv, s.recommendationRequestToId rq ≠ 0 →
        (s.decryptedResults (s.recommendationRequestToId rq)).isRevealed = true →
        decryptRecommendation rq p m pv s = .error .alreadyDecrypted) := by
  refine ⟨fun s op id hid =>
      ⟨(counts_le_step s op).2, fun hrev => revealed_preserved_step hid hrev⟩,
    fun s rec rq hr => requestRecDec_err_already rq hr,
    fun s rq p m pv h0 hr => decryptRec_err_already p m pv h0 hr⟩

/-- Witness for C5 on a state holding one revealed recommendation
(submit, request, callback, request reveal, reveal callback). -/
theorem isRevealed_monotone_after_creation_witness :
    ((step (execTrace initState
        [Op.submitProfile 1 2 3 4 0, Op.requestRecommendation 1 7,
         Op.genRecommendation 7 50000 600000 80 1 true 0,
         Op.requestRecDecryption 1 8, Op.decryptRec 8 3 100 true])
      (Op.submitProfile 9 9 9 9 9)).decryptedResults 1).isRevealed = true ∧
    requestRecommendationDecryption 1 9 (execTrace initState
      [Op.submitProfile 1 2 3 4 0, Op.requestRecommendation 1 7,
       Op.genRecommendation 7 50000 600000 80 1 true 0,
       Op.requestRecDecryption 1 8, Op.decryptRec 8 3 100 true]) =
      .error .alreadyDecrypted ∧
    decryptRecommendation 8 5 5 true (execTrace initState
      [Op.submitProfile 1 2 3 4 0, Op.requestRecommendation 1 7,
       Op.genRecommendation 7 50000 600000 80 1 true 0,
       Op.requestRecDecryption 1 8, Op.decryptRec 8 3 100 true]) =
      .error .alreadyDecrypted := by
  have h := isRevealed_monotone_after_creation
  exact ⟨(h.1 (execTrace initState
        [Op.submitProfile 1 2 3 4 0, Op.requestRecommendation 1 7,
         Op.genRecommendation 7 50000 600000 80 1 true 0,
         Op.requestRecDecryption 1 8, Op.decryptRec 8 3 100 true])
      (Op.submitProfile 9 9 9 9 9) 1 (by decide)).2 (by decide),
    h.2.1 (execTrace initState
      [Op.submitProfile 1 2 3 4 0, Op.requestRecommendation 1 7,
       Op.genRecommendation 7 50000 600000 80 1 true 0,
       Op.requestRecDecryption 1 8, Op.decryptRec 8 3 100 true]) 1 9 (by decide),
    h.2.2 (execTrace initState
      [Op.submitProfile 1 2 3 4 0, Op.requestRecommendation 1 7,
       Op.genRecommendation 7 50000 600000 80 1 true 0,
       Op.requestRecDecryption 1 8, Op.decryptRec 8 3 100 true]) 8 5 5 true
      (by decide) (by decide)⟩

/-- C5 counterexample: a reveal can target recommendation id 1 before any
recommendation exists (no existence check), setting isRevealed = true;
the subsequent creation of recommendation 1 writes isRevealed = false
over it — the flag is reset true → false, refuting unrestricted
monotonicity. -/
theorem isRevealed_reset_cex :
    ((execTrace initState
      [Op.requestRecDecryption 1 5, Op.decryptRec 5 9 9 true]).decryptedResults 1).isRevealed
      = true ∧
    ((execTrace initState
      [Op.requestRecDecryption 1 5, Op.decryptRec 5 9 9 true,
       Op.submitProfile 1 1 1 1 0, Op.requestRecommendation 1 6,
       Op.genRecommendation 6 1 1 1 1 true 0]).decryptedResults 1).isRevealed
      = false := by
  exact ⟨by decide, by decide⟩

/-- C6: profile ids are assigned as `profileCount + 1` by each successful
submit and both counters never decrease along any trace, so ids returned
by successive submits are strictly increasing and never reused; likewise
recommendation ids assigned by successful ProfileDecrypt callbacks are
strictly increasing and never reused or decremented. -/
theorem ids_strictly_increasing :
    (∀ s ops, s.profileCount ≤ (execTrace s ops).profileCount ∧
              s.recommendationCount ≤ (execTrace s ops).recommendationCount) ∧
    (∀ a b c d ts s s2, submitEncryptedProfile a b c d ts s = .ok s2 →
        s2.profileCount = s.profileCount + 1 ∧
        (s2.encryptedProfiles (s.profileCount + 1)).profileId = s.profileCount + 1) ∧
    (∀ rq i a r g pv ts s s2, generateRecommendation rq i a r g pv ts s = .ok s2 →
        s2.recommendationCount = s.recommendationCount + 1 ∧
        (s2.encryptedRecommendations (s.recommendationCount + 1)).recommendationId =
          s.recommendationCount + 1) ∧
    (∀ a b c d ts s s1 ops a2 b2 c2 d2 ts2 s2,
        submitEncryptedProfile a b c d ts s = .ok s1 →
        submitEncryptedProfile a2 b2 c2 d2 ts2 (execTrace s1 ops) = .ok s2 →
        s1.profileCount < s2.profileCount) ∧
    (∀ rq i a r g pv ts s s1 ops rq2 i2 a2 r2 g2 pv2 ts2 s2,
        generateRecommendation rq i a r g pv ts s = .ok s1 →
        generateRecommendation rq2 i2 a2 r2 g2 pv2 ts2 (execTrace s1 ops) = .ok s2 →
        s1.recommendationCount < s2.recommendationCount) := by
  refine ⟨fun s ops => counts_le_execTrace ops s, ?_, ?_, ?_, ?_⟩
  · intro a b c d ts s s2 h
    obtain ⟨h1, _, h3, _⟩ := submit_ok_shape h
    exact ⟨h1, h3⟩
  · intro rq i a r g pv ts s s2 h
    obtain ⟨_, _, _, ms, _, _, hrc, _, _, _, _, heset, _⟩ := genRec_ok_shape h
    exact ⟨hrc, by rw [heset]⟩
  · intro a b c d ts s s1 ops a2 b2 c2 d2 ts2 s2 h1 h2
    obtain ⟨hp1, _⟩ := submit_ok_shape h1
    obtain ⟨hp2, _⟩ := submit_ok_shape h2
    have hmono := (counts_le_execTrace ops s1).1
    omega
  · intro rq i a r g pv ts s s1 ops rq2 i2 a2 r2 g2 pv2 ts2 s2 h1 h2
    obtain ⟨_, _, _, ms1, _, _, hr1, _⟩ := genRec_ok_shape h1
    obtain ⟨_, _, _, ms2, _, _, hr2, _⟩ := genRec_ok_shape h2
    have hmono := (counts_le_execTrace ops s1).2
    omega

/-- Witness for C6: two consecutive submits on the fresh contract return
ids 1 then 2. -/
theorem ids_strictly_increasing_witness :
    (step initState (Op.submitProfile 1 1 1 1 0)).profileCount <
    (step (execTrace (step initState (Op.submitProfile 1 1 1 1 0)) [])
      (Op.submitProfile 2 2 2 2 0)).profileCount :=
  ids_strictly_increasing.2.2.2.1 1 1 1 1 0 initState
    (step initState (Op.submitProfile 1 1 1 1 0)) [] 2 2 2 2 0
    (step (execTrace (step initState (Op.submitProfile 1 1 1 1 0)) [])
      (Op.submitProfile 2 2 2 2 0)) rfl rfl

/-- C7 (amended): the source performs no existence check on either
request path.  `requestFinancialRecommendation` succeeds for every
profileId — including ids with no stored Profile — issuing the oracle
request and recording the pending entry; `requestRecommendationDecryption`
succeeds for every recommendationId whose result slot is unrevealed
(which includes every nonexistent id, whose slot holds the zero struct),
likewise recording the pending entry.  No NotFound failure exists. -/
theorem requestDecrypt_without_notfound :
    (∀ s profileId reqId,
        requestFinancialRecommendation profileId reqId s =
          .ok { s with requestToProfileId := fun r =>
                  if r = reqId then profileId else s.requestToProfileId r }) ∧
    (∀ s recommendationId reqId,
        (s.decryptedResults recommendationId).isRevealed = false →
        requestRecommendationDecryption recommendationId reqId s =
          .ok { s with recommendationRequestToId := fun r =>
                  if r = reqId then recommendationId
                  else s.recommendationRequestToId r }) := by
  exact ⟨fun s p r => requestRec_run p r s,
         fun s rec rq hr => requestRecDec_ok rq hr⟩

/-- Witness for C7: on the fresh contract (no profiles, no
recommendations) both request paths succeed for id 5. -/
theorem requestDecrypt_without_notfound_witness :
    requestFinancialRecommendation 5 7 initState =
      .ok { initState with requestToProfileId := fun r =>
              if r = 7 then 5 else initState.requestToProfileId r } ∧
    requestRecommendationDecryption 5 8 initState =
      .ok { initState with recommendationRequestToId := fun r =>
              if r = 8 then 5 else initState.recommendationRequestToId r } :=
  ⟨requestDecrypt_without_notfound.1 initState 5 7,
   requestDecrypt_without_notfound.2 initState 5 8 (by decide)⟩

/-- C7 counterexample: requesting a recommendation for nonexistent
profile 5 on the fresh contract does not revert: the call is accepted and
the pending entry requestId 7 ↦ profileId 5 is recorded. -/
theorem requestDecrypt_notfound_cex :
    isOkB (requestFinancialRecommendation 5 7 initState) = true ∧
    (step initState (Op.requestRecommendation 5 7)).requestToProfileId 7 = 5 ∧
    isOkB (requestRecommendationDecryption 5 8 initState) = true ∧
    (step initState (Op.requestRecDecryption 5 8)).recommendationRequestToId 8 = 5 := by
  exact ⟨by decide, by decide, by decide, by decide⟩

/-- C8 (amended): every callback whose requestId has a live pending entry
but whose proof fails verification aborts with the whole state exactly
unchanged — no Recommendation created, no result written or revealed, no
entry consumed.  The error is InvalidProof whenever the entry's target
has not already been revealed (always the case for ProfileDecrypt
callbacks), but a RecommendationDecrypt entry whose target was already
revealed through another pending entry fails with the already-decrypted
error instead, because that guard precedes proof verification in the
source. -/
theorem invalid_proof_rejected :
    (∀ s rq i a r g ts, s.requestToProfileId rq ≠ 0 →
        generateRecommendation rq i a r g false ts s = .error .invalidProof ∧
        step s (.genRecommendation rq i a r g false ts) = s) ∧
    (∀ s rq p m, s.recommendationRequestToId rq ≠ 0 →
        ((s.decryptedResults (s.recommendationRequestToId rq)).isRevealed = false →
          decryptRecommendation rq p m false s = .error .invalidProof) ∧
        ((s.decryptedResults (s.recommendationRequestToId rq)).isRevealed = true →
          decryptRecommendation rq p m false s = .error .alreadyDecrypted) ∧
        step s (.decryptRec rq p m false) = s) := by
  constructor
  · intro s rq i a r g ts h0
    have he := genRec_err_proof i a r g ts h0
    exact ⟨he, step_of_error he⟩
  · intro s rq p m h0
    refine ⟨fun hr => decryptRec_err_proof p m h0 hr,
            fun hr => decryptRec_err_already p m false h0 hr, ?_⟩
    by_cases hr : (s.decryptedResults (s.recommendationRequestToId rq)).isRevealed
    · exact step_of_error (decryptRec_err_already p m false h0 hr)
    · exact step_of_error (decryptRec_err_proof p m h0 (by simpa using hr))

/-- Witness for C8 exercising all three branches concretely: a bad-proof
ProfileDecrypt delivery, a bad-proof reveal delivery on an unrevealed
target, and a bad-proof delivery on the live never-resolved entry 9 whose
target was revealed through entry 8; each leaves the state untouched. -/
theorem invalid_proof_rejected_witness :
    (generateRecommendation 7 1 1 1 1 false 0
        (step initState (Op.requestRecommendation 1 7)) = .error .invalidProof ∧
      step (step initState (Op.requestRecommendation 1 7))
        (.genRecommendation 7 1 1 1 1 false 0) =
        step initState (Op.requestRecommendation 1 7)) ∧
    (decryptRecommendation 8 1 1 false
        (step initState (Op.requestRecDecryption 1 8)) = .error .invalidProof ∧
      step (step initState (Op.requestRecDecryption 1 8)) (.decryptRec 8 1 1 false) =
        step initState (Op.requestRecDecryption 1 8)) ∧
    (decryptRecommendation 9 1 1 false (execTrace initState
        [Op.submitProfile 1 2 3 4 0, Op.requestRecommendation 1 7,
         Op.genRecommendation 7 50000 600000 80 1 true 0,
         Op.requestRecDecryption 1 8, Op.requestRecDecryption 1 9,
         Op.decryptRec 8 3 100 true]) = .error .alreadyDecrypted ∧
      step (execTrace initState
        [Op.submitProfile 1 2 3 4 0, Op.requestRecommendation 1 7,
         Op.genRecommendation 7 50000 600000 80 1 true 0,
         Op.requestRecDecryption 1 8, Op.requestRecDecryption 1 9,
         Op.decryptRec 8 3 100 true]) (.decryptRec 9 1 1 false) =
        execTrace initState
        [Op.submitProfile 1 2 3 4 0, Op.requestRecommendation 1 7,
         Op.genRecommendation 7 50000 600000 80 1 true 0,
         Op.requestRecDecryption 1 8, Op.requestRecDecryption 1 9,
         Op.decryptRec 8 3 100 true]) :=
  ⟨invalid_proof_rejected.1 (step initState (Op.requestRecommendation 1 7))
      7 1 1 1 1 0 (by decide),
   ⟨(invalid_proof_rejected.2 (step initState (Op.requestRecDecryption 1 8))
      8 1 1 (by decide)).1 (by decide),
    (invalid_proof_rejected.2 (step initState (Op.requestRecDecryption 1 8))
      8 1 1 (by decide)).2.2⟩,
   (invalid_proof_rejected.2 (execTrace initState
        [Op.submitProfile 1 2 3 4 0, Op.requestRecommendation 1 7,
         Op.genRecommendation 7 50000 600000 80 1 true 0,
         Op.requestRecDecryption 1 8, Op.requestRecDecryption 1 9,
         Op.decryptRec 8 3 100 true]) 9 1 1 (by decide)).2.1 (by decide),
   (invalid_proof_rejected.2 (execTrace initState
        [Op.submitProfile 1 2 3 4 0, Op.requestRecommendation 1 7,
         Op.genRecommendation 7 50000 600000 80 1 true 0,
         Op.requestRecDecryption 1 8, Op.requestRecDecryption 1 9,
         Op.decryptRec 8 3 100 true]) 9 1 1 (by decide)).2.2⟩

/-- C8 counterexample: two reveal requests for recommendation 1 are
pending (entries 8 and 9); the callback for entry 8 resolves the reveal,
leaving entry 9 live (it maps to 1 and was never resolved).  A delivery
on entry 9 with a failing proof then errors with the already-decrypted
revert, not InvalidProof — the already-decrypted guard precedes proof
verification — refuting the claim that every live-entry bad-proof
delivery fails with InvalidProof. -/
theorem invalid_proof_wrong_error_cex :
    (execTrace initState
      [Op.submitProfile 1 2 3 4 0, Op.requestRecommendation 1 7,
       Op.genRecommendation 7 50000 600000 80 1 true 0,
       Op.requestRecDecryption 1 8, Op.requestRecDecryption 1 9,
       Op.decryptRec 8 3 100 true]).recommendationRequestToId 9 = 1 ∧
    decryptRecommendation 9 1 1 false (execTrace initState
      [Op.submitProfile 1 2 3 4 0, Op.requestRecommendation 1 7,
       Op.genRecommendation 7 50000 600000 80 1 true 0,
       Op.requestRecDecryption 1 8, Op.requestRecDecryption 1 9,
       Op.decryptRec 8 3 100 true]) = .error .alreadyDecrypted ∧
    decryptRecommendation 9 1 1 false (execTrace initState
      [Op.submitProfile 1 2 3 4 0, Op.requestRecommendation 1 7,
       Op.genRecommendation 7 50000 600000 80 1 true 0,
       Op.requestRecDecryption 1 8, Op.requestRecDecryption 1 9,
       Op.decryptRec 8 3 100 true]) ≠ .error .invalidProof := by
  refine ⟨by decide, rfl, fun hcontra => ?_⟩
  have h1 : (Except.error ContractError.alreadyDecrypted :
      Except ContractError ContractState) = Except.error ContractError.invalidProof := by
    rw [← hcontra]
    rfl
  injection h1 with h2
  exact ContractError.noConfusion h2

/-- C10 (amended): `getEncryptedProfile` cannot fail: for id 0 and for
every id never assigned by a submit (above the current profileCount) it
returns the default all-zero record instead of a NotFound error, on every
reachable state. -/
theorem get_returns_default_for_unknown :
    ∀ ops id, id = 0 ∨ (execTrace initState ops).profileCount < id →
      getEncryptedProfile id (execTrace initState ops) = (0, 0, 0, 0, 0) := by
  intro ops id hid
  have hp := pristine_execTrace ops initState pristine_init id hid
  simp [getEncryptedProfile, hp]

/-- Witness for C10: after one submit, id 2 is unknown and the getter
returns the zero record. -/
theorem get_returns_default_witness :
    getEncryptedProfile 2 (execTrace initState [Op.submitProfile 7 7 7 7 7]) =
      (0, 0, 0, 0, 0) :=
  get_returns_default_for_unknown [Op.submitProfile 7 7 7 7 7] 2 (by decide)

/-- C10 counterexample: `getEncryptedProfile` returns the empty/default
record for id 0 and for unknown ids instead of failing with NotFound. -/
theorem get_notfound_cex :
    getEncryptedProfile 0 initState = (0, 0, 0, 0, 0) ∧
    getEncryptedProfile 5 initState = (0, 0, 0, 0, 0) ∧
    getEncryptedProfile 3 (step initState (Op.submitProfile 7 7 7 7 7)) =
      (0, 0, 0, 0, 0) := by
  exact ⟨by decide, by decide, by decide⟩

end FinRec
